import Mathlib

/-!
Verification of the outfit-fitting transform pipeline of
`src/virtualshop/src/app/page.tsx` (a three.js based virtual try-on UI).

Numeric values are modelled as exact rationals.  Where the behaviour of
JavaScript non-finite values (NaN, Infinity) matters — the `safe` clamp
inside `autoFitOutfitToAvatar` — numbers are modelled by the `JsNum` type,
which distinguishes finite values from the three non-finite ones.
-/

namespace VirtualShop

/-- Three-component vector, modelling `THREE.Vector3` with exact rational
coordinates. -/
structure Vec3 where
  x : ℚ
  y : ℚ
  z : ℚ
deriving DecidableEq, Repr

/-- Componentwise vector addition (`THREE.Vector3.add`). -/
def Vec3.add (a b : Vec3) : Vec3 := ⟨a.x + b.x, a.y + b.y, a.z + b.z⟩

/-- Componentwise vector subtraction (`THREE.Vector3.subVectors`). -/
def Vec3.sub (a b : Vec3) : Vec3 := ⟨a.x - b.x, a.y - b.y, a.z - b.z⟩

/-- Scalar multiplication (`THREE.Vector3.multiplyScalar`). -/
def Vec3.smul (k : ℚ) (a : Vec3) : Vec3 := ⟨k * a.x, k * a.y, k * a.z⟩

/-- Axis-aligned bounding box, modelling `THREE.Box3`. -/
structure Box3 where
  min : Vec3
  max : Vec3
deriving DecidableEq, Repr

/-- Models `THREE.Box3.isEmpty`: the box is empty when `max < min` on some
axis. -/
def Box3.isEmpty (b : Box3) : Bool :=
  decide (b.max.x < b.min.x) || decide (b.max.y < b.min.y) ||
    decide (b.max.z < b.min.z)

/-- Models `THREE.Box3.getSize`: `(0,0,0)` for an empty box, otherwise
`max - min` componentwise. -/
def Box3.getSize (b : Box3) : Vec3 :=
  if b.isEmpty then ⟨0, 0, 0⟩
  else ⟨b.max.x - b.min.x, b.max.y - b.min.y, b.max.z - b.min.z⟩

/-- Models `THREE.Box3.getCenter`: `(0,0,0)` for an empty box, otherwise
`(min + max) / 2` componentwise. -/
def Box3.getCenter (b : Box3) : Vec3 :=
  if b.isEmpty then ⟨0, 0, 0⟩
  else ⟨(b.min.x + b.max.x) / 2, (b.min.y + b.max.y) / 2,
        (b.min.z + b.max.z) / 2⟩

/-- A JavaScript number as seen by `Number.isFinite`: either a finite value
(modelled exactly as a rational) or one of the three non-finite values. -/
inductive JsNum where
  | fin (q : ℚ)
  | posInf
  | negInf
  | nan
deriving DecidableEq, Repr

/-- Models `Number.isFinite`. -/
def JsNum.isFinite : JsNum → Bool
  | .fin _ => true
  | _ => false

/-- Models the clamp `safe = (n) => (Number.isFinite(n) && n > 0 ? n : 1)`
from `autoFitOutfitToAvatar` (page.tsx line 147).  The result is always a
positive finite number. -/
def safe (n : JsNum) : ℚ :=
  match n with
  | .fin q => if 0 < q then q else 1
  | _ => 1

/-- Models the scale-factor computation of `autoFitOutfitToAvatar`
(page.tsx lines 148-153):
`Math.min(safe(ax)/safe(ox), safe(ay)/safe(oy), safe(az)/safe(oz)) * 0.95`. -/
def scaleFactor (ax ay az ox oy oz : JsNum) : ℚ :=
  min (min (safe ax / safe ox) (safe ay / safe oy)) (safe az / safe oz) *
    (95 / 100)

/-- A captured object transform: `position`, `scale` and Euler `rotation`
(radians), mirroring the mutable transform fields of a `THREE.Object3D` and
the record captured by `captureOutfitBaseTransform` (page.tsx 121-127). -/
structure Transform where
  position : Vec3
  scale : Vec3
  rotation : Vec3
deriving DecidableEq, Repr

/-- The user offset state `outfitTransform` (page.tsx 62-70, 110). -/
structure TransformOffset where
  posX : ℚ
  posY : ℚ
  posZ : ℚ
  scale : ℚ
  rotXDeg : ℚ
  rotYDeg : ℚ
  rotZDeg : ℚ
deriving DecidableEq, Repr

/-- `DEFAULT_OUTFIT_TRANSFORM` (page.tsx 62-70): all-zero offsets with the
multiplicative identity for scale. -/
def DEFAULT_OUTFIT_TRANSFORM : TransformOffset :=
  { posX := 0, posY := 0, posZ := 0, scale := 1,
    rotXDeg := 0, rotYDeg := 0, rotZDeg := 0 }

/-- The IEEE-754 double closest to the exact circle constant, i.e. the exact
rational value of JavaScript `Math.PI`: `884279719003555 / 2^48`. -/
def MATH_PI : ℚ := 884279719003555 / 281474976710656

/-- Models `THREE.MathUtils.degToRad`: multiplication by `Math.PI / 180`. -/
def degToRad (degrees : ℚ) : ℚ := degrees * MATH_PI / 180

/-- The transform compositor: the body of the `useEffect` that runs on every
`outfitTransform` change (page.tsx 194-209).  Position is base plus offset
per axis, scale is base times the single uniform offset scale, and rotation
is set to exactly `base.rotation` before the degree offsets are added. -/
def recompose (base : Transform) (t : TransformOffset) : Transform :=
  { position := ⟨base.position.x + t.posX, base.position.y + t.posY,
                 base.position.z + t.posZ⟩
    scale := ⟨base.scale.x * t.scale, base.scale.y * t.scale,
              base.scale.z * t.scale⟩
    rotation := ⟨base.rotation.x + degToRad t.rotXDeg,
                 base.rotation.y + degToRad t.rotYDeg,
                 base.rotation.z + degToRad t.rotZDeg⟩ }

/-- The full recomposition effect (page.tsx 183-210): if no base transform
has been captured yet, the outfit object's current transform becomes the
base (lines 187-192); the object's transform is then overwritten with
`recompose base offset`.  Returns the written transform and the (possibly
newly captured) base. -/
def recomposeEffect (cur : Transform) (base : Option Transform)
    (t : TransformOffset) : Transform × Transform :=
  let b := base.getD cur
  (recompose b t, b)

/-- World AABB of an object after multiplying its own `scale` by `k`
(`outfit.scale.multiplyScalar(scaleFactor)`, page.tsx 155, followed by
`new THREE.Box3().setFromObject(outfit)`, line 160).  For an object with
position `p`, rotation `R` and scale `s`, every world point of its subtree
has the form `p + R S_s v`, so multiplying `s` by `k` maps world points by
the homothety `x ↦ p + k (x - p)`; the recomputed AABB is therefore the
image of the old AABB under that homothety, with componentwise corner
ordering. -/
def scaleBoxAbout (p : Vec3) (k : ℚ) (b : Box3) : Box3 :=
  let c1 : Vec3 := ⟨p.x + k * (b.min.x - p.x), p.y + k * (b.min.y - p.y),
                    p.z + k * (b.min.z - p.z)⟩
  let c2 : Vec3 := ⟨p.x + k * (b.max.x - p.x), p.y + k * (b.max.y - p.y),
                    p.z + k * (b.max.z - p.z)⟩
  { min := ⟨min c1.x c2.x, min c1.y c2.y, min c1.z c2.z⟩,
    max := ⟨max c1.x c2.x, max c1.y c2.y, max c1.z c2.z⟩ }

/-- World AABB of an object after adding `d` to its position
(`outfit.position.add(delta)`, page.tsx 163): a pure translation. -/
def translateBox (d : Vec3) (b : Box3) : Box3 :=
  { min := Vec3.add b.min d, max := Vec3.add b.max d }

/-- The geometric core of `autoFitOutfitToAvatar` (page.tsx 139-163),
operating on the avatar's world AABB, the outfit's current world AABB and
the outfit's current transform: compute both sizes, clamp through `safe`,
take the minimum axis ratio times 0.95, multiply the outfit scale by it,
recompute the outfit AABB post-scale, and translate the outfit by
`avatarCenter - outfitCenterPostScale`. -/
def autoFitCore (avatarBox outfitBox : Box3) (outfit : Transform) :
    Transform :=
  let avatarSize := avatarBox.getSize
  let outfitSize := outfitBox.getSize
  let k := scaleFactor (.fin avatarSize.x) (.fin avatarSize.y)
    (.fin avatarSize.z) (.fin outfitSize.x) (.fin outfitSize.y)
    (.fin outfitSize.z)
  let postBox := scaleBoxAbout outfit.position k outfitBox
  let avatarCenter := avatarBox.getCenter
  let outfitCenter := postBox.getCenter
  let delta := Vec3.sub avatarCenter outfitCenter
  { position := Vec3.add outfit.position delta,
    scale := ⟨outfit.scale.x * k, outfit.scale.y * k, outfit.scale.z * k⟩,
    rotation := outfit.rotation }

/-- The outfit's world AABB after `autoFitCore` ran: the post-scale box
translated by the centering delta. -/
def autoFitCoreBox (avatarBox outfitBox : Box3) (outfit : Transform) :
    Box3 :=
  let avatarSize := avatarBox.getSize
  let outfitSize := outfitBox.getSize
  let k := scaleFactor (.fin avatarSize.x) (.fin avatarSize.y)
    (.fin avatarSize.z) (.fin outfitSize.x) (.fin outfitSize.y)
    (.fin outfitSize.z)
  let postBox := scaleBoxAbout outfit.position k outfitBox
  let delta := Vec3.sub avatarBox.getCenter postBox.getCenter
  translateBox delta postBox

/-- Modelled from the spec: the expected auto-fit scale factor for
non-degenerate boxes, `min over the three axes of
(avatar extent / outfit extent) times 0.95`, used to compare the source
computation against the claim. -/
def specFitScale (avatarBox outfitBox : Box3) : ℚ :=
  min (min ((avatarBox.max.x - avatarBox.min.x) /
        (outfitBox.max.x - outfitBox.min.x))
      ((avatarBox.max.y - avatarBox.min.y) /
        (outfitBox.max.y - outfitBox.min.y)))
    ((avatarBox.max.z - avatarBox.min.z) /
      (outfitBox.max.z - outfitBox.min.z)) * (95 / 100)

/-- Modelled from the claim's words (C3): a scale factor in which a zero or
non-finite outfit extent makes that axis's whole ratio term equal to 1
(rather than only the outfit extent being clamped to 1).  Used to compare
the claimed behaviour with the source computation. -/
def scaleFactorClaimed (ax ay az ox oy oz : JsNum) : ℚ :=
  let ratio : JsNum → JsNum → ℚ := fun a o =>
    if o = JsNum.fin 0 ∨ o.isFinite = false then 1 else safe a / safe o
  min (min (ratio ax ox) (ratio ay oy)) (ratio az oz) * (95 / 100)

/-- A zero or non-finite extent, the degenerate case named by the spec. -/
abbrev degenerateExtent (n : JsNum) : Prop :=
  n = JsNum.fin 0 ∨ n.isFinite = false

/-- The error message set by `autoFitOutfitToAvatar` when the avatar or the
outfit is not loaded yet (page.tsx 133). -/
def AUTO_FIT_NOT_READY_MSG : String :=
  "Auto Fit 실패: 아바타/의상이 아직 로드되지 않았습니다."

/-- The state read and written by `autoFitOutfitToAvatar`: the optional
attached outfit (its transform and current world AABB), the optional avatar
model (its world AABB), the captured base transform, the user offset and
the error indicator. -/
structure FitState where
  outfit : Option (Transform × Box3)
  avatarModel : Option Box3
  baseT : Option Transform
  offset : TransformOffset
  error : Option String
deriving DecidableEq, Repr

/-- `autoFitOutfitToAvatar` (page.tsx 129-167) as a state transition.  When
either prerequisite is absent it only sets the error message and returns;
otherwise it clears the error, runs the geometric fit, resets the offset to
`DEFAULT_OUTFIT_TRANSFORM` and captures the fitted transform as the new
base. -/
def autoFitOutfitToAvatar (s : FitState) : FitState :=
  match s.outfit, s.avatarModel with
  | some ob, some ab =>
      let fitted := autoFitCore ab ob.2 ob.1
      let fittedBox := autoFitCoreBox ab ob.2 ob.1
      { s with error := none,
               outfit := some (fitted, fittedBox),
               offset := DEFAULT_OUTFIT_TRANSFORM,
               baseT := some fitted }
  | _, _ => { s with error := some AUTO_FIT_NOT_READY_MSG }

/-! ## Attachment lifecycle (scene-graph) model -/

/-- Which code path created a node attached under the avatar root: the body
model attached by `loadAvatarFromUrl`, or an outfit attached by
`loadOutfit` / `loadTextureOutfit`. -/
inductive NodeKind where
  | bodyModel
  | outfitNode
deriving DecidableEq, Repr

/-- A child of the avatar root group.  JavaScript object identity is
modelled by a numeric id, fresh ids being drawn from a counter. -/
structure SceneNode where
  id : Nat
  kind : NodeKind
deriving DecidableEq, Repr

/-- The scene / component state touched by the attachment lifecycle:
children of the avatar root, the `outfitRef` and `avatarModelRef` mutable
refs, the fresh-id counter, the `loading` and `error` indicators, the
`isCustomAvatar` ref, and the captured base transform plus user offset.
`ready` models `controlsRef.current && avatarRef.current &&
cameraRef.current` being non-null after scene initialisation. -/
structure Scene where
  ready : Bool
  children : List SceneNode
  outfitRef : Option Nat
  avatarModelRef : Option Nat
  nextId : Nat
  loading : Option String
  error : Option String
  isCustomAvatar : Bool
  baseT : Option Transform
  offset : TransformOffset
deriving DecidableEq, Repr

/-- The default avatar URL `AVATAR_URL` (page.tsx 28-29). -/
def AVATAR_URL : String :=
  "https://models.readyplayer.me/6940cd65100ae875d5bc78fd.glb"

/-- Loading indicator text for outfit loads (page.tsx 338). -/
def LOADING_OUTFIT_MSG : String := "loading outfit..."

/-- Loading indicator text for avatar loads (page.tsx 521). -/
def LOADING_AVATAR_MSG : String := "loading avatar..."

/-- Outfit GLB load error message for a missing-DRACO-decoder condition
(page.tsx 492-494). -/
def OUTFIT_LOAD_ERROR_DRACO : String :=
  "의상 로드 실패: DRACO 압축 GLB일 수 있어요. (1) DRACO 디코더를 받을 수 있게 네트워크 허용 또는 (2) 디코더를 public 경로로 제공해야 합니다."

/-- Generic outfit GLB load error message (page.tsx 496). -/
def OUTFIT_LOAD_ERROR_GENERIC : String :=
  "의상 로드 실패 (GLB URL/CORS/파일 손상 가능)"

/-- Texture outfit load error message (page.tsx 324). -/
def TEXTURE_LOAD_ERROR_MSG : String := "이미지 로드 실패"

/-- Avatar load error message for a missing-DRACO-decoder condition
(page.tsx 574-576). -/
def AVATAR_LOAD_ERROR_DRACO : String :=
  "아바타 로드 실패: DRACO 압축 GLB일 수 있어요. (1) DRACO 디코더를 받을 수 있게 네트워크 허용 또는 (2) 디코더를 public 경로로 제공해야 합니다."

/-- Generic avatar load error message (page.tsx 578). -/
def AVATAR_LOAD_ERROR_GENERIC : String :=
  "아바타 로드 실패 (GLB URL/CORS/파일 손상 가능)"

/-- Removal of the previously attached outfit
(`avatarRef.current.remove(outfitRef.current); outfitRef.current = null`,
page.tsx 287-290 and 348-351). -/
def removePreviousOutfit (s : Scene) : Scene :=
  match s.outfitRef with
  | some a =>
      { s with children := s.children.filter (fun n => n.id != a),
               outfitRef := none }
  | none => s

/-- Attachment of a newly created/loaded outfit object: set `outfitRef`,
add it under the avatar root, reset the offset to
`DEFAULT_OUTFIT_TRANSFORM`, capture the object's transform as the new base
and clear the loading indicator (the common tail of every outfit attach
path, e.g. page.tsx 451-456 and 471-485). -/
def attachOutfit (s : Scene) (t : Transform) : Scene :=
  { s with children := s.children ++ [⟨s.nextId, NodeKind.outfitNode⟩],
           outfitRef := some s.nextId,
           nextId := s.nextId + 1,
           offset := DEFAULT_OUTFIT_TRANSFORM,
           baseT := some t,
           loading := none }

/-- A procedural outfit load (page.tsx 354-458): synchronous.  All three
procedural variants (basic shirt, body overlay, coat) perform the same
scene mutation — remove the previous outfit, build an object, attach it —
differing only in the constructed geometry/material, summarised here by the
new object's transform `t`. -/
def loadOutfitProcedural (s : Scene) (t : Transform) : Scene :=
  if s.ready then
    attachOutfit
      (removePreviousOutfit
        { s with loading := some LOADING_OUTFIT_MSG, error := none }) t
  else s

/-- The synchronous part of a GLB outfit load (page.tsx 336-351, 460-468):
set the loading indicator, clear the error and remove the previous outfit
before the asynchronous load is issued. -/
def loadOutfitGlbStart (s : Scene) : Scene :=
  if s.ready then
    removePreviousOutfit
      { s with loading := some LOADING_OUTFIT_MSG, error := none }
  else s

/-- The GLB outfit load success callback (page.tsx 470-486): attach the
loaded scene with its transform `t`. -/
def loadOutfitGlbSuccess (s : Scene) (t : Transform) : Scene :=
  attachOutfit s t

/-- The GLB outfit load error callback (page.tsx 488-499): set an error
message selected by the DRACO heuristic and clear the loading indicator. -/
def loadOutfitGlbError (s : Scene) (isDracoErr : Bool) : Scene :=
  { s with error := some (if isDracoErr then OUTFIT_LOAD_ERROR_DRACO
             else OUTFIT_LOAD_ERROR_GENERIC),
           loading := none }

/-- The synchronous part of a texture outfit load (page.tsx 341-343 and
278-292): set the loading indicator, clear the error and remove the
previous outfit before the asynchronous texture load is issued. -/
def loadTextureOutfitStart (s : Scene) : Scene :=
  if s.ready then
    removePreviousOutfit
      { s with loading := some LOADING_OUTFIT_MSG, error := none }
  else s

/-- The fixed transform of the billboard mesh built by `loadTextureOutfit`
(page.tsx 309-310): position `(0, 1.35, 0.12)`, unit scale, no rotation. -/
def TEXTURE_MESH_TRANSFORM : Transform :=
  { position := ⟨0, 27 / 20, 3 / 25⟩, scale := ⟨1, 1, 1⟩,
    rotation := ⟨0, 0, 0⟩ }

/-- The texture outfit load success callback (page.tsx 295-320): attach the
billboard mesh. -/
def loadTextureOutfitSuccess (s : Scene) : Scene :=
  attachOutfit s TEXTURE_MESH_TRANSFORM

/-- The texture outfit load error callback (page.tsx 322-326). -/
def loadTextureOutfitError (s : Scene) : Scene :=
  { s with error := some TEXTURE_LOAD_ERROR_MSG, loading := none }

/-- The synchronous part of `loadAvatarFromUrl` (page.tsx 505-530): early
return when the scene is not ready; the start guard returning unchanged
when the default URL is requested while `isCustomAvatar` is set; marking
the avatar as custom at request time for any non-empty non-default URL;
then setting the loading indicator and clearing the error before the
asynchronous load is issued. -/
def loadAvatarFromUrlStart (s : Scene) (url : String) : Scene :=
  if s.ready = false then s
  else if url = AVATAR_URL ∧ s.isCustomAvatar = true then s
  else
    let s1 := if url ≠ AVATAR_URL ∧ url ≠ "" then
        { s with isCustomAvatar := true }
      else s
    { s1 with loading := some LOADING_AVATAR_MSG, error := none }

/-- The avatar load success callback (page.tsx 533-567): if the avatar root
still exists, remove the previous avatar model, attach the new one and
clear the loading indicator; otherwise only clear the loading indicator.
The code then re-applies a currently selected outfit by calling
`loadOutfit`, modelled separately by composing the outfit-load steps. -/
def loadAvatarSuccess (s : Scene) : Scene :=
  if s.ready then
    let s1 := match s.avatarModelRef with
      | some m => { s with children := s.children.filter (fun n => n.id != m) }
      | none => s
    { s1 with avatarModelRef := some s1.nextId,
              children := s1.children ++ [⟨s1.nextId, NodeKind.bodyModel⟩],
              nextId := s1.nextId + 1,
              loading := none }
  else { s with loading := none }

/-- The avatar load error callback (page.tsx 570-581): set an error message
selected by the DRACO heuristic and clear the loading indicator; nothing
else changes. -/
def loadAvatarError (s : Scene) (isDracoErr : Bool) : Scene :=
  { s with error := some (if isDracoErr then AVATAR_LOAD_ERROR_DRACO
             else AVATAR_LOAD_ERROR_GENERIC),
           loading := none }

/-- Scene well-formedness: every child id is below the fresh-id counter,
and every outfit-kind child is the one referenced by `outfitRef`. -/
abbrev sceneWF (s : Scene) : Prop :=
  (∀ n ∈ s.children, n.id < s.nextId) ∧
  (∀ n ∈ s.children, n.kind = NodeKind.outfitNode → s.outfitRef = some n.id)

/-- Post-state of a completed outfit swap, as the spec demands it: exactly
one outfit object under the avatar root, and the replaced object's id
absent from the scene graph. -/
abbrev outfitSwapOk (s : Scene) (a : Nat) : Prop :=
  (s.children.countP (fun n => n.kind == NodeKind.outfitNode)) = 1 ∧
  a ∉ s.children.map SceneNode.id

/-! ## Object-URL lifecycle model -/

/-- Object-URL lifecycle state: the `lastObjectUrlRef` ref (page.tsx 99),
the set of created-and-not-revoked object URLs, and a counter producing the
next URL `URL.createObjectURL` returns. -/
structure UrlState where
  lastObjectUrl : Option Nat
  liveUrls : List Nat
  nextUrl : Nat
deriving DecidableEq, Repr

/-- The outfit GLB file input `onChange` handler (page.tsx 893-918):
revoke the previously tracked object URL, create a new one, track it. -/
def outfitGlbFileUpload (u : UrlState) : UrlState :=
  let u1 := match u.lastObjectUrl with
    | some x => { u with liveUrls := u.liveUrls.filter (fun v => v != x),
                         lastObjectUrl := none }
    | none => u
  { u1 with liveUrls := u1.liveUrls ++ [u1.nextUrl],
            lastObjectUrl := some u1.nextUrl,
            nextUrl := u1.nextUrl + 1 }

/-- The Magic 2D image file input `onChange` handler (page.tsx 1185-1215):
`URL.createObjectURL(file)` is called and the resulting URL is never
revoked (the processed outfit stores a separate data URL). -/
def magicImageUpload (u : UrlState) : UrlState :=
  { u with liveUrls := u.liveUrls ++ [u.nextUrl], nextUrl := u.nextUrl + 1 }

/-- Concrete avatar AABB of size `(1, 2, 1)` centred at `(0, 1, 0)`. -/
def exampleAvatarBox : Box3 := ⟨⟨-(1 / 2), 0, -(1 / 2)⟩, ⟨1 / 2, 2, 1 / 2⟩⟩

/-- Concrete outfit AABB of size `(2, 2, 2)` centred at `(0, 0, 0)`. -/
def exampleOutfitBox : Box3 := ⟨⟨-1, -1, -1⟩, ⟨1, 1, 1⟩⟩

/-- The identity object transform. -/
def identityTransform : Transform :=
  ⟨⟨0, 0, 0⟩, ⟨1, 1, 1⟩, ⟨0, 0, 0⟩⟩

/-- A concrete ready scene with a body model (id 0) and outfit A (id 1)
attached. -/
def exampleScene : Scene :=
  { ready := true,
    children := [⟨0, NodeKind.bodyModel⟩, ⟨1, NodeKind.outfitNode⟩],
    outfitRef := some 1, avatarModelRef := some 0, nextId := 2,
    loading := none, error := none, isCustomAvatar := false,
    baseT := some identityTransform, offset := DEFAULT_OUTFIT_TRANSFORM }

/-- A concrete custom avatar URL distinct from the default one. -/
def exampleCustomUrl : String := "https://example.com/custom-avatar.glb"

/-! ## Helper lemmas -/

/-- The `safe` clamp returns 1 on a zero or non-finite input. -/
theorem safe_of_degenerate {n : JsNum} (h : degenerateExtent n) :
    safe n = 1 := by
  rcases h with h | h
  · subst h; simp [safe]
  · cases n <;> simp [JsNum.isFinite] at h ⊢ <;> rfl

/-- The `safe` clamp always returns a positive value. -/
theorem safe_pos (n : JsNum) : 0 < safe n := by
  cases n with
  | fin q =>
      simp only [safe]
      split
      · assumption
      · norm_num
  | posInf => norm_num [safe]
  | negInf => norm_num [safe]
  | nan => norm_num [safe]

/-- The scale factor computed by `autoFitOutfitToAvatar` is always
positive. -/
theorem scaleFactor_pos (ax ay az ox oy oz : JsNum) :
    0 < scaleFactor ax ay az ox oy oz := by
  have h1 : 0 < safe ax / safe ox := div_pos (safe_pos ax) (safe_pos ox)
  have h2 : 0 < safe ay / safe oy := div_pos (safe_pos ay) (safe_pos oy)
  have h3 : 0 < safe az / safe oz := div_pos (safe_pos az) (safe_pos oz)
  have : (0 : ℚ) < 95 / 100 := by norm_num
  exact mul_pos (lt_min (lt_min h1 h2) h3) this

/-- A box with strictly ordered bounds on every axis is not empty. -/
theorem isEmpty_false_of_lt {b : Box3} (h1 : b.min.x < b.max.x)
    (h2 : b.min.y < b.max.y) (h3 : b.min.z < b.max.z) :
    b.isEmpty = false := by
  simp only [Box3.isEmpty, Bool.or_eq_false_iff, decide_eq_false_iff_not,
    not_lt]
  exact ⟨⟨h1.le, h2.le⟩, h3.le⟩

/-- Size x-component of a non-empty box. -/
theorem getSize_x {b : Box3} (h1 : b.min.x < b.max.x)
    (h2 : b.min.y < b.max.y) (h3 : b.min.z < b.max.z) :
    b.getSize.x = b.max.x - b.min.x := by
  simp [Box3.getSize, isEmpty_false_of_lt h1 h2 h3]

/-- Size y-component of a non-empty box. -/
theorem getSize_y {b : Box3} (h1 : b.min.x < b.max.x)
    (h2 : b.min.y < b.max.y) (h3 : b.min.z < b.max.z) :
    b.getSize.y = b.max.y - b.min.y := by
  simp [Box3.getSize, isEmpty_false_of_lt h1 h2 h3]

/-- Size z-component of a non-empty box. -/
theorem getSize_z {b : Box3} (h1 : b.min.x < b.max.x)
    (h2 : b.min.y < b.max.y) (h3 : b.min.z < b.max.z) :
    b.getSize.z = b.max.z - b.min.z := by
  simp [Box3.getSize, isEmpty_false_of_lt h1 h2 h3]

/-- The `safe` clamp is the identity on positive finite values. -/
theorem safe_fin_pos {q : ℚ} (h : 0 < q) : safe (.fin q) = q := by
  simp [safe, h]

/-- For non-degenerate boxes the scale factor computed inside
`autoFitOutfitToAvatar` agrees with the spec formula
`min over axes of (avatar extent / outfit extent) times 0.95`. -/
theorem fitScale_eq_spec (ab ob : Box3) (hax : ab.min.x < ab.max.x)
    (hay : ab.min.y < ab.max.y) (haz : ab.min.z < ab.max.z)
    (hox : ob.min.x < ob.max.x) (hoy : ob.min.y < ob.max.y)
    (hoz : ob.min.z < ob.max.z) :
    scaleFactor (.fin ab.getSize.x) (.fin ab.getSize.y) (.fin ab.getSize.z)
      (.fin ob.getSize.x) (.fin ob.getSize.y) (.fin ob.getSize.z) =
      specFitScale ab ob := by
  simp only [scaleFactor, specFitScale]
  rw [getSize_x hax hay haz, getSize_y hax hay haz, getSize_z hax hay haz,
    getSize_x hox hoy hoz, getSize_y hox hoy hoz, getSize_z hox hoy hoz,
    safe_fin_pos (sub_pos.mpr hax), safe_fin_pos (sub_pos.mpr hay),
    safe_fin_pos (sub_pos.mpr haz), safe_fin_pos (sub_pos.mpr hox),
    safe_fin_pos (sub_pos.mpr hoy), safe_fin_pos (sub_pos.mpr hoz)]

/-- The homothety image of a box is never empty: its corners are ordered by
construction. -/
theorem scaleBoxAbout_isEmpty (p : Vec3) (k : ℚ) (b : Box3) :
    (scaleBoxAbout p k b).isEmpty = false := by
  simp only [scaleBoxAbout, Box3.isEmpty, Bool.or_eq_false_iff,
    decide_eq_false_iff_not, not_lt]
  exact ⟨⟨min_le_max, min_le_max⟩, min_le_max⟩

/-- Translating a box preserves emptiness. -/
theorem translateBox_isEmpty (d : Vec3) (b : Box3) :
    (translateBox d b).isEmpty = b.isEmpty := by
  simp [translateBox, Box3.isEmpty, Vec3.add, add_lt_add_iff_right]

/-- Center of a translated non-empty box. -/
theorem getCenter_translate (d : Vec3) {b : Box3}
    (hb : b.isEmpty = false) :
    (translateBox d b).getCenter = Vec3.add b.getCenter d := by
  have ht : (translateBox d b).isEmpty = false := by
    rw [translateBox_isEmpty, hb]
  unfold Box3.getCenter
  simp only [ht, hb, Bool.false_eq_true, if_false]
  simp only [translateBox, Vec3.add, Vec3.mk.injEq]
  refine ⟨by ring, by ring, by ring⟩

/-- Adding back the difference to a vector recovers the minuend. -/
theorem Vec3.add_sub_cancel_mid (a c : Vec3) :
    Vec3.add c (Vec3.sub a c) = a := by
  cases a; cases c
  simp only [Vec3.add, Vec3.sub, Vec3.mk.injEq]
  refine ⟨by ring, by ring, by ring⟩

/-- After the auto-fit translation the outfit's world AABB is centred on
the avatar's AABB center. -/
theorem getCenter_autoFitCoreBox (ab ob : Box3) (o : Transform) :
    (autoFitCoreBox ab ob o).getCenter = ab.getCenter := by
  unfold autoFitCoreBox
  rw [getCenter_translate _ (scaleBoxAbout_isEmpty _ _ _)]
  exact Vec3.add_sub_cancel_mid _ _

/-! ## Claim theorems -/

/-- C2: for every captured base transform and every offset, the
recomposition writes position = base position plus the offset componentwise,
scale = base scale times the single uniform offset scale, and rotation =
base rotation plus `degToRad` of the degree offsets per axis, always
starting from exactly the base rotation rather than the previously written
one, so repeated recomposition with the same base and offset yields the
same final transform without drift. -/
theorem recompose_writes_from_base (cur b : Transform)
    (t : TransformOffset) :
    (recomposeEffect cur (some b) t).1.position =
      ⟨b.position.x + t.posX, b.position.y + t.posY,
       b.position.z + t.posZ⟩ ∧
    (recomposeEffect cur (some b) t).1.scale =
      ⟨b.scale.x * t.scale, b.scale.y * t.scale, b.scale.z * t.scale⟩ ∧
    (recomposeEffect cur (some b) t).1.rotation =
      ⟨b.rotation.x + degToRad t.rotXDeg, b.rotation.y + degToRad t.rotYDeg,
       b.rotation.z + degToRad t.rotZDeg⟩ ∧
    recomposeEffect (recomposeEffect cur (some b) t).1 (some b) t =
      recomposeEffect cur (some b) t :=
  ⟨rfl, rfl, rfl, rfl⟩

/-- C8: for every captured base transform `b` (and whatever transform the
outfit object currently carries), recomposing with the identity offset
`DEFAULT_OUTFIT_TRANSFORM` writes exactly `b` back onto the outfit
object. -/
theorem recompose_identity_offset (cur b : Transform) :
    (recomposeEffect cur (some b) DEFAULT_OUTFIT_TRANSFORM).1 = b := by
  obtain ⟨⟨px, py, pz⟩, ⟨sx, sy, sz⟩, ⟨rx, ry, rz⟩⟩ := b
  simp [recomposeEffect, recompose, DEFAULT_OUTFIT_TRANSFORM, degToRad]

/-- C7: when the avatar model or the outfit object is absent,
`autoFitOutfitToAvatar` only sets the NotReady error message and leaves the
outfit transform, the captured base transform and the offset exactly as
before; it always returns a state (the process does not abort). -/
theorem autoFit_not_ready (s : FitState)
    (h : s.outfit = none ∨ s.avatarModel = none) :
    autoFitOutfitToAvatar s =
      { s with error := some AUTO_FIT_NOT_READY_MSG } := by
  cases ho : s.outfit <;> cases ha : s.avatarModel <;>
    simp_all [autoFitOutfitToAvatar]

/-- Witness for C7 at a concrete empty state. -/
theorem autoFit_not_ready_witness :
    (FitState.outfit
        ⟨none, none, none, DEFAULT_OUTFIT_TRANSFORM, none⟩ = none ∨
      FitState.avatarModel
        ⟨none, none, none, DEFAULT_OUTFIT_TRANSFORM, none⟩ = none) ∧
    autoFitOutfitToAvatar ⟨none, none, none, DEFAULT_OUTFIT_TRANSFORM, none⟩ =
      ⟨none, none, none, DEFAULT_OUTFIT_TRANSFORM,
        some AUTO_FIT_NOT_READY_MSG⟩ :=
  ⟨Or.inl rfl,
    autoFit_not_ready ⟨none, none, none, DEFAULT_OUTFIT_TRANSFORM, none⟩
      (Or.inl rfl)⟩

/-- C9 (code evaluated at the failing input): two consecutive Magic 2D
image uploads leave both created object URLs live — the superseded one is
never revoked — while two consecutive outfit-GLB file uploads keep only the
most recent object URL live. -/
theorem magicImageUpload_never_revokes :
    (magicImageUpload (magicImageUpload ⟨none, [], 0⟩)).liveUrls = [0, 1] ∧
    (outfitGlbFileUpload (outfitGlbFileUpload ⟨none, [], 0⟩)).liveUrls =
      [1] := by
  decide

/-- Counterexample for C3 as stated: with avatar extents `(1/2, 3, 3)` and
outfit extents `(0, 1, 1)`, the code computes scale factor
`min(1/2, 3, 3) * 0.95 = 19/40`, while the claim — the degenerate axis's
whole ratio term becomes 1 — predicts `min(1, 3, 3) * 0.95 = 19/20`. -/
theorem scaleFactor_c3_counterexample :
    scaleFactor (.fin (1 / 2)) (.fin 3) (.fin 3) (.fin 0) (.fin 1)
        (.fin 1) = 19 / 40 ∧
    scaleFactorClaimed (.fin (1 / 2)) (.fin 3) (.fin 3) (.fin 0) (.fin 1)
        (.fin 1) = 19 / 20 ∧
    (19 / 40 : ℚ) ≠ 19 / 20 := by
  refine ⟨?_, ?_, by norm_num⟩
  · norm_num [scaleFactor, safe, min_def]
  · norm_num [scaleFactorClaimed, safe, JsNum.isFinite, min_def]

/-- C3 amended: when an outfit extent is zero or non-finite, the code
substitutes 1.0 for that axis's outfit extent (not for the whole ratio
term), so that axis's ratio term equals the clamped avatar extent divided
by 1; and the resulting scale factor is always positive (in particular
never infinite or NaN). -/
theorem scaleFactor_degenerate_amended :
    (∀ ax ay az ox oy oz : JsNum, degenerateExtent ox →
      scaleFactor ax ay az ox oy oz =
        min (min (safe ax / 1) (safe ay / safe oy)) (safe az / safe oz) *
          (95 / 100)) ∧
    (∀ ax ay az ox oy oz : JsNum, degenerateExtent oy →
      scaleFactor ax ay az ox oy oz =
        min (min (safe ax / safe ox) (safe ay / 1)) (safe az / safe oz) *
          (95 / 100)) ∧
    (∀ ax ay az ox oy oz : JsNum, degenerateExtent oz →
      scaleFactor ax ay az ox oy oz =
        min (min (safe ax / safe ox) (safe ay / safe oy)) (safe az / 1) *
          (95 / 100)) ∧
    (∀ ax ay az ox oy oz : JsNum, 0 < scaleFactor ax ay az ox oy oz) := by
  refine ⟨?_, ?_, ?_, fun ax ay az ox oy oz => scaleFactor_pos _ _ _ _ _ _⟩
  · intro ax ay az ox oy oz h
    rw [scaleFactor, safe_of_degenerate h]
  · intro ax ay az ox oy oz h
    rw [scaleFactor, safe_of_degenerate h]
  · intro ax ay az ox oy oz h
    rw [scaleFactor, safe_of_degenerate h]

/-- For non-degenerate boxes, `autoFitCore` multiplies the outfit scale
uniformly by the spec formula, translates by the center difference, leaves
rotation untouched, and recentres the outfit AABB on the avatar AABB. -/
theorem autoFit_general (ab ob : Box3) (o : Transform)
    (hax : ab.min.x < ab.max.x) (hay : ab.min.y < ab.max.y)
    (haz : ab.min.z < ab.max.z) (hox : ob.min.x < ob.max.x)
    (hoy : ob.min.y < ob.max.y) (hoz : ob.min.z < ob.max.z) :
    (autoFitCore ab ob o).scale =
      ⟨o.scale.x * specFitScale ab ob, o.scale.y * specFitScale ab ob,
       o.scale.z * specFitScale ab ob⟩ ∧
    (autoFitCore ab ob o).position =
      Vec3.add o.position
        (Vec3.sub ab.getCenter
          ((scaleBoxAbout o.position (specFitScale ab ob) ob).getCenter)) ∧
    (autoFitCore ab ob o).rotation = o.rotation ∧
    (autoFitCoreBox ab ob o).getCenter = ab.getCenter := by
  have hk := fitScale_eq_spec ab ob hax hay haz hox hoy hoz
  refine ⟨?_, ?_, ?_, getCenter_autoFitCoreBox ab ob o⟩
  · simp only [autoFitCore, hk]
  · simp only [autoFitCore, hk]
  · simp only [autoFitCore]

/-- C1: for every avatar and attached outfit whose AABBs have positive
extents on all axes, `autoFitOutfitToAvatar` multiplies the outfit's scale
uniformly by `min over the three axes of (avatar extent / outfit extent)`
times 0.95, then translates the outfit by (avatar AABB center − outfit AABB
center recomputed after the scaling), so the post-translation outfit AABB
is centred on the avatar AABB center; in particular for an avatar AABB of
size (1,2,1) centred at (0,1,0) and an outfit AABB of size (2,2,2) centred
at the origin the applied scale factor is 0.475 and the post-translation
outfit AABB center is (0,1,0). -/
theorem autoFit_scales_and_centers :
    (∀ (ab ob : Box3) (o : Transform),
      ab.min.x < ab.max.x → ab.min.y < ab.max.y → ab.min.z < ab.max.z →
      ob.min.x < ob.max.x → ob.min.y < ob.max.y → ob.min.z < ob.max.z →
      (autoFitCore ab ob o).scale =
        ⟨o.scale.x * specFitScale ab ob, o.scale.y * specFitScale ab ob,
         o.scale.z * specFitScale ab ob⟩ ∧
      (autoFitCore ab ob o).position =
        Vec3.add o.position
          (Vec3.sub ab.getCenter
            ((scaleBoxAbout o.position (specFitScale ab ob) ob).getCenter)) ∧
      (autoFitCore ab ob o).rotation = o.rotation ∧
      (autoFitCoreBox ab ob o).getCenter = ab.getCenter) ∧
    (autoFitCore exampleAvatarBox exampleOutfitBox identityTransform).scale =
      ⟨19 / 40, 19 / 40, 19 / 40⟩ ∧
    (autoFitCoreBox exampleAvatarBox exampleOutfitBox
        identityTransform).getCenter = ⟨0, 1, 0⟩ := by
  have hex := autoFit_general exampleAvatarBox exampleOutfitBox
    identityTransform (by norm_num [exampleAvatarBox])
    (by norm_num [exampleAvatarBox]) (by norm_num [exampleAvatarBox])
    (by norm_num [exampleOutfitBox]) (by norm_num [exampleOutfitBox])
    (by norm_num [exampleOutfitBox])
  refine ⟨fun ab ob o hax hay haz hox hoy hoz =>
    autoFit_general ab ob o hax hay haz hox hoy hoz, ?_, ?_⟩
  · rw [hex.1]
    norm_num [identityTransform, specFitScale, exampleAvatarBox,
      exampleOutfitBox, min_def]
  · rw [hex.2.2.2]
    norm_num [Box3.getCenter, Box3.isEmpty, exampleAvatarBox]

/-- Witness for C1 at the concrete boxes of the spec's worked example. -/
theorem autoFit_scales_and_centers_witness :
    (exampleAvatarBox.min.x < exampleAvatarBox.max.x ∧
     exampleAvatarBox.min.y < exampleAvatarBox.max.y ∧
     exampleAvatarBox.min.z < exampleAvatarBox.max.z ∧
     exampleOutfitBox.min.x < exampleOutfitBox.max.x ∧
     exampleOutfitBox.min.y < exampleOutfitBox.max.y ∧
     exampleOutfitBox.min.z < exampleOutfitBox.max.z) ∧
    (autoFitCoreBox exampleAvatarBox exampleOutfitBox
        identityTransform).getCenter = exampleAvatarBox.getCenter :=
  ⟨⟨by norm_num [exampleAvatarBox], by norm_num [exampleAvatarBox],
    by norm_num [exampleAvatarBox], by norm_num [exampleOutfitBox],
    by norm_num [exampleOutfitBox], by norm_num [exampleOutfitBox]⟩,
   (autoFit_scales_and_centers.1 exampleAvatarBox exampleOutfitBox
      identityTransform (by norm_num [exampleAvatarBox])
      (by norm_num [exampleAvatarBox]) (by norm_num [exampleAvatarBox])
      (by norm_num [exampleOutfitBox]) (by norm_num [exampleOutfitBox])
      (by norm_num [exampleOutfitBox])).2.2.2⟩

/-- Witness for the amended C3 at a concrete degenerate input. -/
theorem scaleFactor_degenerate_amended_witness :
    degenerateExtent (JsNum.fin 0) ∧
    scaleFactor (.fin 2) (.fin 2) (.fin 2) (.fin 0) (.fin 1) (.fin 1) =
      min (min (safe (.fin 2) / 1) (safe (.fin 2) / safe (.fin 1)))
        (safe (.fin 2) / safe (.fin 1)) * (95 / 100) :=
  ⟨by decide,
    scaleFactor_degenerate_amended.1 (.fin 2) (.fin 2) (.fin 2) (.fin 0)
      (.fin 1) (.fin 1) (by decide)⟩

/-- Core outfit-swap fact: removing the attached outfit and attaching a
freshly created one leaves exactly one outfit node under the root and drops
the previous object's id from the scene graph. -/
theorem swap_core (s : Scene) (a : Nat) (t : Transform)
    (h1 : ∀ n ∈ s.children, n.id < s.nextId)
    (h2 : ∀ n ∈ s.children, n.kind = NodeKind.outfitNode →
      s.outfitRef = some n.id)
    (ha : s.outfitRef = some a)
    (hmem : (⟨a, NodeKind.outfitNode⟩ : SceneNode) ∈ s.children) :
    outfitSwapOk (attachOutfit (removePreviousOutfit s) t) a := by
  have hlt : a < s.nextId := h1 _ hmem
  have hfil : ∀ n ∈ s.children.filter (fun n => n.id != a),
      ¬((fun n => n.kind == NodeKind.outfitNode) n = true) := by
    intro n hn hk
    rw [List.mem_filter] at hn
    have hkind : n.kind = NodeKind.outfitNode := by
      exact beq_iff_eq.mp hk
    have h3 := h2 n hn.1 hkind
    rw [ha, Option.some.injEq] at h3
    exact bne_iff_ne.mp hn.2 h3.symm
  constructor
  · simp only [removePreviousOutfit, ha, attachOutfit]
    rw [List.countP_append, List.countP_eq_zero.mpr hfil]
    simp [List.countP_cons]
  · simp only [removePreviousOutfit, ha, attachOutfit]
    intro hmem2
    rw [List.map_append, List.mem_append] at hmem2
    rcases hmem2 with hmem2 | hmem2
    · rw [List.mem_map] at hmem2
      obtain ⟨n, hn, hid⟩ := hmem2
      rw [List.mem_filter] at hn
      exact bne_iff_ne.mp hn.2 hid
    · simp only [List.map_cons, List.map_nil, List.mem_singleton] at hmem2
      exact absurd hmem2 (Nat.ne_of_lt hlt)

/-- C4: from any well-formed state with outfit `A` attached under the
avatar root, completing the attach of outfit `B` — through the procedural,
GLB or texture path — leaves exactly one outfit object under the avatar
root, and `A`'s object reference appears nowhere in the scene graph. -/
theorem outfit_swap_exclusive (s : Scene) (a : Nat) (t t2 : Transform)
    (hwf : sceneWF s) (hr : s.ready = true) (ha : s.outfitRef = some a)
    (hmem : (⟨a, NodeKind.outfitNode⟩ : SceneNode) ∈ s.children) :
    outfitSwapOk (loadOutfitProcedural s t) a ∧
    outfitSwapOk (loadOutfitGlbSuccess (loadOutfitGlbStart s) t2) a ∧
    outfitSwapOk (loadTextureOutfitSuccess (loadTextureOutfitStart s)) a := by
  obtain ⟨h1, h2⟩ := hwf
  refine ⟨?_, ?_, ?_⟩
  · unfold loadOutfitProcedural
    rw [if_pos hr]
    exact swap_core _ a t h1 h2 ha hmem
  · unfold loadOutfitGlbSuccess loadOutfitGlbStart
    rw [if_pos hr]
    exact swap_core _ a t2 h1 h2 ha hmem
  · unfold loadTextureOutfitSuccess loadTextureOutfitStart
    rw [if_pos hr]
    exact swap_core _ a TEXTURE_MESH_TRANSFORM h1 h2 ha hmem

/-- Witness for C4 at the concrete scene. -/
theorem outfit_swap_exclusive_witness :
    (sceneWF exampleScene ∧ exampleScene.ready = true ∧
      exampleScene.outfitRef = some 1 ∧
      (⟨1, NodeKind.outfitNode⟩ : SceneNode) ∈ exampleScene.children) ∧
    outfitSwapOk (loadOutfitProcedural exampleScene identityTransform) 1 :=
  ⟨⟨by decide, rfl, rfl, by decide⟩,
    (outfit_swap_exclusive exampleScene 1 identityTransform
      identityTransform (by decide) rfl rfl (by decide)).1⟩

/-- Counterexample for C5 as stated: with outfit A (id 1) attached,
starting a GLB outfit load and having it fail leaves the slot empty and
A's object removed from the scene graph — the previously attached outfit
does not remain attached. -/
theorem outfit_load_failure_counterexample :
    (loadOutfitGlbError (loadOutfitGlbStart exampleScene) false).outfitRef =
      none ∧
    (1 : Nat) ∉ (loadOutfitGlbError (loadOutfitGlbStart exampleScene)
      false).children.map SceneNode.id := by
  decide

/-- C5 amended: on a failed avatar load the previously attached avatar
model remains attached and only the error/loading indicators change; on a
failed outfit load (GLB or texture), because the previous outfit is removed
at request time, the avatar is left with no outfit attached; in every case
the failure only surfaces an error message and clears the loading
indicator. -/
theorem load_failure_amended :
    (∀ (s : Scene) (url : String) (d : Bool),
      (loadAvatarError (loadAvatarFromUrlStart s url) d).children =
        s.children ∧
      (loadAvatarError (loadAvatarFromUrlStart s url) d).avatarModelRef =
        s.avatarModelRef ∧
      (loadAvatarError (loadAvatarFromUrlStart s url) d).outfitRef =
        s.outfitRef ∧
      (loadAvatarError (loadAvatarFromUrlStart s url) d).baseT = s.baseT ∧
      (loadAvatarError (loadAvatarFromUrlStart s url) d).offset =
        s.offset ∧
      (loadAvatarError (loadAvatarFromUrlStart s url) d).loading = none ∧
      (loadAvatarError (loadAvatarFromUrlStart s url) d).error =
        some (if d then AVATAR_LOAD_ERROR_DRACO
          else AVATAR_LOAD_ERROR_GENERIC)) ∧
    (∀ (s : Scene) (a : Nat) (d : Bool), s.ready = true →
      s.outfitRef = some a →
      (loadOutfitGlbError (loadOutfitGlbStart s) d).outfitRef = none ∧
      a ∉ (loadOutfitGlbError (loadOutfitGlbStart s) d).children.map
        SceneNode.id ∧
      (loadOutfitGlbError (loadOutfitGlbStart s) d).error =
        some (if d then OUTFIT_LOAD_ERROR_DRACO
          else OUTFIT_LOAD_ERROR_GENERIC) ∧
      (loadOutfitGlbError (loadOutfitGlbStart s) d).loading = none) ∧
    (∀ (s : Scene) (a : Nat), s.ready = true → s.outfitRef = some a →
      (loadTextureOutfitError (loadTextureOutfitStart s)).outfitRef =
        none ∧
      a ∉ (loadTextureOutfitError (loadTextureOutfitStart s)).children.map
        SceneNode.id ∧
      (loadTextureOutfitError (loadTextureOutfitStart s)).error =
        some TEXTURE_LOAD_ERROR_MSG ∧
      (loadTextureOutfitError (loadTextureOutfitStart s)).loading =
        none) := by
  refine ⟨?_, ?_, ?_⟩
  · intro s url d
    simp only [loadAvatarError, loadAvatarFromUrlStart]
    split
    · simp
    · split
      · simp
      · split
        · simp
        · simp
  · intro s a d hr ha
    unfold loadOutfitGlbError loadOutfitGlbStart removePreviousOutfit
    rw [if_pos hr]
    dsimp only
    rw [ha]
    refine ⟨rfl, ?_, rfl, rfl⟩
    intro hmem
    rw [List.mem_map] at hmem
    obtain ⟨n, hn, hid⟩ := hmem
    rw [List.mem_filter] at hn
    exact bne_iff_ne.mp hn.2 hid
  · intro s a hr ha
    unfold loadTextureOutfitError loadTextureOutfitStart
      removePreviousOutfit
    rw [if_pos hr]
    dsimp only
    rw [ha]
    refine ⟨rfl, ?_, rfl, rfl⟩
    intro hmem
    rw [List.mem_map] at hmem
    obtain ⟨n, hn, hid⟩ := hmem
    rw [List.mem_filter] at hn
    exact bne_iff_ne.mp hn.2 hid

/-- Witness for the amended C5, at the concrete scene with outfit id 1
attached and a failing GLB outfit load. -/
theorem load_failure_amended_witness :
    (exampleScene.ready = true ∧ exampleScene.outfitRef = some 1) ∧
    ((loadOutfitGlbError (loadOutfitGlbStart exampleScene)
        false).outfitRef = none ∧
      (1 : Nat) ∉ (loadOutfitGlbError (loadOutfitGlbStart exampleScene)
        false).children.map SceneNode.id ∧
      (loadOutfitGlbError (loadOutfitGlbStart exampleScene) false).error =
        some (if false then OUTFIT_LOAD_ERROR_DRACO
          else OUTFIT_LOAD_ERROR_GENERIC) ∧
      (loadOutfitGlbError (loadOutfitGlbStart exampleScene)
        false).loading = none) :=
  ⟨⟨rfl, rfl⟩, load_failure_amended.2.1 exampleScene 1 false rfl rfl⟩

/-- The start guard of `loadAvatarFromUrl`: with the custom-avatar flag
set, a request for the default avatar URL returns the state unchanged. -/
theorem loadAvatarStart_default_guard (s : Scene)
    (hc : s.isCustomAvatar = true) :
    loadAvatarFromUrlStart s AVATAR_URL = s := by
  unfold loadAvatarFromUrlStart
  by_cases hr : s.ready = false
  · rw [if_pos hr]
  · rw [if_neg hr, if_pos ⟨rfl, hc⟩]

/-- `loadAvatarFromUrl` marks the avatar as custom at request time for any
non-empty non-default URL. -/
theorem loadAvatarStart_custom_flag (s : Scene) (url : String)
    (hr : s.ready = true) (h1 : url ≠ AVATAR_URL) (h2 : url ≠ "") :
    (loadAvatarFromUrlStart s url).isCustomAvatar = true := by
  unfold loadAvatarFromUrlStart
  rw [if_neg (by simp [hr]), if_neg (fun hc => h1 hc.1), if_pos ⟨h1, h2⟩]

/-- The avatar load success callback preserves the custom-avatar flag and
scene readiness. -/
theorem loadAvatarSuccess_preserves (s : Scene) :
    (loadAvatarSuccess s).isCustomAvatar = s.isCustomAvatar ∧
    (loadAvatarSuccess s).ready = s.ready := by
  simp only [loadAvatarSuccess]
  split
  · cases hm : s.avatarModelRef <;> simp [hm]
  · exact ⟨rfl, rfl⟩

/-- C6: once a custom (non-default) avatar URL has been requested and its
load has completed successfully, a subsequent call to load the default
avatar URL returns the state completely unchanged: no load starts, the
scene graph is untouched, and the loading/error indicators keep their
values. -/
theorem default_avatar_load_noop (s : Scene) (url : String)
    (hr : s.ready = true) (h1 : url ≠ AVATAR_URL) (h2 : url ≠ "") :
    loadAvatarFromUrlStart
        (loadAvatarSuccess (loadAvatarFromUrlStart s url)) AVATAR_URL =
      loadAvatarSuccess (loadAvatarFromUrlStart s url) := by
  apply loadAvatarStart_default_guard
  rw [(loadAvatarSuccess_preserves _).1]
  exact loadAvatarStart_custom_flag s url hr h1 h2

/-- Witness for C6 at the concrete scene and custom URL. -/
theorem default_avatar_load_noop_witness :
    (exampleScene.ready = true ∧ exampleCustomUrl ≠ AVATAR_URL ∧
      exampleCustomUrl ≠ "") ∧
    loadAvatarFromUrlStart
        (loadAvatarSuccess
          (loadAvatarFromUrlStart exampleScene exampleCustomUrl))
        AVATAR_URL =
      loadAvatarSuccess
        (loadAvatarFromUrlStart exampleScene exampleCustomUrl) :=
  ⟨⟨rfl, by decide, by decide⟩,
    default_avatar_load_noop exampleScene exampleCustomUrl rfl (by decide)
      (by decide)⟩

/-- C10: `loadAvatarFromUrl` sets the custom-avatar flag at request time
for every non-empty URL different from the default, so even when that
custom load fails, a later request for the default avatar URL is still
ignored and returns the state unchanged. -/
theorem custom_flag_set_at_request (s : Scene) (url : String) (d : Bool)
    (hr : s.ready = true) (h1 : url ≠ AVATAR_URL) (h2 : url ≠ "") :
    (loadAvatarFromUrlStart s url).isCustomAvatar = true ∧
    loadAvatarFromUrlStart
        (loadAvatarError (loadAvatarFromUrlStart s url) d) AVATAR_URL =
      loadAvatarError (loadAvatarFromUrlStart s url) d := by
  refine ⟨loadAvatarStart_custom_flag s url hr h1 h2, ?_⟩
  apply loadAvatarStart_default_guard
  have herr : (loadAvatarError (loadAvatarFromUrlStart s url)
      d).isCustomAvatar = (loadAvatarFromUrlStart s url).isCustomAvatar :=
    rfl
  rw [herr]
  exact loadAvatarStart_custom_flag s url hr h1 h2

/-- Witness for C10 at the concrete scene, custom URL and a failing load. -/
theorem custom_flag_set_at_request_witness :
    (exampleScene.ready = true ∧ exampleCustomUrl ≠ AVATAR_URL ∧
      exampleCustomUrl ≠ "") ∧
    ((loadAvatarFromUrlStart exampleScene
        exampleCustomUrl).isCustomAvatar = true ∧
      loadAvatarFromUrlStart
          (loadAvatarError
            (loadAvatarFromUrlStart exampleScene exampleCustomUrl) false)
          AVATAR_URL =
        loadAvatarError
          (loadAvatarFromUrlStart exampleScene exampleCustomUrl) false) :=
  ⟨⟨rfl, by decide, by decide⟩,
    custom_flag_set_at_request exampleScene exampleCustomUrl false rfl
      (by decide) (by decide)⟩

end VirtualShop
